import Mathlib

/-!
A shallow embedding of the cheetah request-dispatch pipeline
(class `cheetah`, file `cheetah.ts`) and of the `env` accessor
(file `x/env.ts`), together with theorems settling the claims about
the natural-language specification of the repository.

JavaScript values manipulated by the pipeline are modelled by the
inductive `JsVal`; JavaScript objects used as string-keyed maps are
modelled by insertion-ordered association lists (`jsSet` / `jsGet` /
`jsDelete` mirror property assignment, lookup and `delete`).
-/

namespace Cheetah

/-- The subset of JavaScript values flowing through the pipeline.
`nan` is the number `NaN` (produced by `parseInt` on non-numeric input). -/
inductive JsVal where
  | nullV
  | undefinedV
  | bool (b : Bool)
  | num (n : Int)
  | nan
  | str (s : String)
  | arr (xs : List JsVal)
  | obj (fields : List (String × JsVal))

/-- JavaScript truthiness of a value. -/
def truthy : JsVal → Bool
  | .nullV => false
  | .undefinedV => false
  | .bool b => b
  | .num n => n != 0
  | .nan => false
  | .str s => !s.isEmpty
  | .arr _ => true
  | .obj _ => true

/-- JavaScript property access `v[k]`: on a non-object (for instance a
primitive string) any named property used by the pipeline is `undefined`. -/
def getField : JsVal → String → JsVal
  | .obj fs, k =>
    match fs.find? (fun kv => kv.1 = k) with
    | some kv => kv.2
    | none => .undefinedV
  | _, _ => .undefinedV

/-- JS object property assignment on a string-keyed map: an existing key is
updated in place, a new key is appended (insertion order). -/
def jsSet {α : Type} (m : List (String × α)) (k : String) (v : α) : List (String × α) :=
  if m.any (fun kv => kv.1 = k) then
    m.map (fun kv => if kv.1 = k then (k, v) else kv)
  else m ++ [(k, v)]

/-- JS object property lookup. -/
def jsGet {α : Type} (m : List (String × α)) (k : String) : Option α :=
  (m.find? (fun kv => kv.1 = k)).map (fun kv => kv.2)

/-- JS `delete m[k]`. -/
def jsDelete {α : Type} (m : List (String × α)) (k : String) : List (String × α) :=
  m.filter (fun kv => kv.1 ≠ k)

/-- Hexadecimal digit character (lower case), for `\uXXXX` escapes. -/
def hexDigit (n : Nat) : Char :=
  if n < 10 then Char.ofNat (48 + n) else Char.ofNat (87 + n)

/-- Four-digit hexadecimal rendering of a code point below `0x10000`. -/
def hex4 (n : Nat) : String :=
  String.mk [hexDigit (n / 4096 % 16), hexDigit (n / 256 % 16), hexDigit (n / 16 % 16),
    hexDigit (n % 16)]

/-- `JSON.stringify` escaping of one character inside a string literal. -/
def jsonEscapeChar (c : Char) : String :=
  if c = '"' then "\\\""
  else if c = '\\' then "\\\\"
  else if c = Char.ofNat 8 then "\\b"
  else if c = Char.ofNat 9 then "\\t"
  else if c = Char.ofNat 10 then "\\n"
  else if c = Char.ofNat 12 then "\\f"
  else if c = Char.ofNat 13 then "\\r"
  else if c.toNat < 32 then "\\u" ++ hex4 c.toNat
  else String.singleton c

/-- `JSON.stringify` rendering of a string (quoted and escaped). -/
def jsonQuote (s : String) : String :=
  "\"" ++ String.join (s.data.map jsonEscapeChar) ++ "\""

mutual

/-- `JSON.stringify`. `none` models the JS result `undefined`
(stringifying `undefined` itself). `NaN` serializes as `null`. -/
def stringify : JsVal → Option String
  | .nullV => some "null"
  | .undefinedV => none
  | .bool b => some (if b then "true" else "false")
  | .num n => some (toString n)
  | .nan => some "null"
  | .str s => some (jsonQuote s)
  | .arr xs => some ("[" ++ String.intercalate "," (stringifyElems xs) ++ "]")
  | .obj fs => some ("\x7b" ++ String.intercalate "," (stringifyFields fs) ++ "\x7d")

/-- Array elements: `undefined` entries serialize as `null`. -/
def stringifyElems : List JsVal → List String
  | [] => []
  | v :: vs => ((stringify v).getD "null") :: stringifyElems vs

/-- Object fields: entries whose value stringifies to `undefined` are dropped. -/
def stringifyFields : List (String × JsVal) → List String
  | [] => []
  | (k, v) :: fs =>
    match stringify v with
    | some s => (jsonQuote k ++ ":" ++ s) :: stringifyFields fs
    | none => stringifyFields fs

end

/-- `JSON.stringify` with the (unreachable in the pipeline) `undefined`
result defaulted to the empty string. -/
def stringifyD (v : JsVal) : String := (stringify v).getD ""

/- ### JavaScript numeric string built-ins

`cheetah.ts` coerces query values with `isNaN(value)`, `parseFloat` and
`parseInt`; the following definitions embed the ECMAScript semantics of
those built-ins on the (ASCII) strings the pipeline handles. -/

/-- JS whitespace recognised by `Number`, `parseFloat` and `parseInt`
(ASCII subset plus no-break space). -/
def isJsWhite (c : Char) : Bool :=
  c = ' ' || c = Char.ofNat 9 || c = Char.ofNat 10 || c = Char.ofNat 13 ||
  c = Char.ofNat 11 || c = Char.ofNat 12 || c = Char.ofNat 160

/-- Hexadecimal digit predicate. -/
def isHexDigit (c : Char) : Bool :=
  c.isDigit || ('a' ≤ c && c ≤ 'f') || ('A' ≤ c && c ≤ 'F')

/-- Octal digit predicate. -/
def isOctDigit (c : Char) : Bool := '0' ≤ c && c ≤ '7'

/-- Binary digit predicate. -/
def isBinDigit (c : Char) : Bool := c = '0' || c = '1'

/-- Does `l` consist of an optional ExponentPart (`[eE][+-]?digits`) and
nothing else? -/
def expTailOk (l : List Char) : Bool :=
  match l with
  | [] => true
  | c :: r =>
    if c = 'e' || c = 'E' then
      let r1 := match r with
        | s :: r2 => if s = '+' || s = '-' then r2 else r
        | [] => []
      match r1 with
      | [] => false
      | d :: _ => d.isDigit && (r1.dropWhile Char.isDigit).isEmpty
    else false

/-- Does `l` exactly match an unsigned StrUnsignedDecimalLiteral
(`Infinity`, `digits (. digits?)? exp?`, or `. digits exp?`)? -/
def strUnsignedDecOk (l : List Char) : Bool :=
  if l = ['I', 'n', 'f', 'i', 'n', 'i', 't', 'y'] then true
  else
    match l with
    | '.' :: r =>
      (match r with
       | d :: _ => d.isDigit
       | [] => false) && expTailOk (r.dropWhile Char.isDigit)
    | _ =>
      let ds := l.takeWhile Char.isDigit
      let rest := l.dropWhile Char.isDigit
      !ds.isEmpty &&
      (match rest with
       | '.' :: r2 => expTailOk (r2.dropWhile Char.isDigit)
       | _ => expTailOk rest)

/-- Does `l` exactly match a signed decimal literal? -/
def signedDecOk (l : List Char) : Bool :=
  match l with
  | [] => false
  | c :: r => if c = '+' || c = '-' then strUnsignedDecOk r else strUnsignedDecOk l

/-- Whether `Number(s)` is a number (not `NaN`), i.e. whether the trimmed
string matches the ECMAScript StringNumericLiteral grammar (the empty
string converts to `0`). This embeds the JS test `!isNaN(value)`. -/
def strNumericOk (s : String) : Bool :=
  let l := ((s.data.dropWhile isJsWhite).reverse.dropWhile isJsWhite).reverse
  match l with
  | [] => true
  | '0' :: x :: r =>
    if x = 'x' || x = 'X' then !r.isEmpty && r.all isHexDigit
    else if x = 'o' || x = 'O' then !r.isEmpty && r.all isOctDigit
    else if x = 'b' || x = 'B' then !r.isEmpty && r.all isBinDigit
    else signedDecOk l
  | _ => signedDecOk l

/-- Whether `parseFloat(s)` is `NaN`: after leading whitespace and an
optional sign, the string must begin a decimal literal (a digit, a dot
followed by a digit, or `Infinity`). This embeds `isNaN(parseFloat(value))`. -/
def parseFloatIsNaN (s : String) : Bool :=
  let l := s.data.dropWhile isJsWhite
  let l1 := match l with
    | c :: r => if c = '+' || c = '-' then r else l
    | [] => []
  match l1 with
  | [] => true
  | c :: r =>
    if c.isDigit then false
    else if c = '.' then
      !(match r with
        | d :: _ => d.isDigit
        | [] => false)
    else !(l1.take 8 == ['I', 'n', 'f', 'i', 'n', 'i', 't', 'y'])

/-- Numeric value of a hexadecimal digit character. -/
def hexVal (c : Char) : Nat :=
  if c.isDigit then c.toNat - 48
  else if 'a' ≤ c && c ≤ 'f' then c.toNat - 87
  else c.toNat - 55

/-- Digits to natural number in the given base. -/
def digitsToNat (base : Nat) (l : List Char) : Nat :=
  l.foldl (fun a c => a * base + hexVal c) 0

/-- `parseInt(s)` with no radix argument: skip whitespace, optional sign,
optional `0x` prefix selecting base 16, then the longest run of digits;
`none` models the JS result `NaN`. -/
def jsParseInt (s : String) : Option Int :=
  let l := s.data.dropWhile isJsWhite
  let signed := match l with
    | '-' :: r => (true, r)
    | '+' :: r => (false, r)
    | _ => (false, l)
  let based := match signed.2 with
    | '0' :: x :: r => if x = 'x' || x = 'X' then (16, r) else (10, signed.2)
    | _ => (10, signed.2)
  let ds := based.2.takeWhile (fun c => if based.1 = 16 then isHexDigit c else c.isDigit)
  if ds.isEmpty then none
  else
    let n : Int := Int.ofNat (digitsToNat based.1 ds)
    some (if signed.1 then -n else n)

/-- `value.includes(',')`. -/
def hasComma (value : String) : Bool := value.data.contains ','

/-- `value.split(sep)` for a one-character separator. -/
def jsSplitCharAux (sep : Char) : List Char → List Char → List String
  | [], cur => [String.mk cur.reverse]
  | c :: r, cur =>
    if c = sep then String.mk cur.reverse :: jsSplitCharAux sep r []
    else jsSplitCharAux sep r (c :: cur)

/-- `value.split(sep)` for a one-character separator. -/
def jsSplitChar (sep : Char) (s : String) : List String := jsSplitCharAux sep s.data []

/-- Query-value coercion, from `cheetah.ts` (Parse Query Parameters):
the if/else chain applied to each `searchParams` value. -/
def coerceQueryValue (value : String) : JsVal :=
  if value = "" ∨ value = "true" then .bool true
  else if value = "false" then .bool false
  else if hasComma value then .arr ((jsSplitChar ',' value).map .str)
  else if strNumericOk value = true ∧ parseFloatIsNaN value = false then
    match jsParseInt value with
    | some n => .num n
    | none => .nan
  else if value = "undefined" then .undefinedV
  else if value = "null" then .nullV
  else .str value

/-- The query object built from the search parameters (later duplicate
keys overwrite earlier ones, as JS property assignment does). -/
def buildQuery (ps : List (String × String)) : List (String × JsVal) :=
  ps.foldl (fun m kv => jsSet m kv.1 (coerceQueryValue kv.2)) []

/- ### Cookie parsing (cheetah.ts, Parse Cookies) -/

/-- `s.split(/;\s*/)`: split at each semicolon together with the following
whitespace run. -/
def splitSemiWsAux : List Char → List Char → List String
  | [], cur => [String.mk cur.reverse]
  | ';' :: r, cur =>
    String.mk cur.reverse :: splitSemiWsAux (r.dropWhile isJsWhite) []
  | c :: r, cur => splitSemiWsAux r (c :: cur)
termination_by l _ => l.length
decreasing_by
  · simp_wf
    have h : ∀ l : List Char, (l.dropWhile isJsWhite).length ≤ l.length := by
      intro l
      induction l with
      | nil => simp [List.dropWhile]
      | cons c r2 ih =>
        by_cases hc : isJsWhite c
        · simp only [List.dropWhile, hc]
          exact ih.trans (Nat.le_succ _)
        · simp only [List.dropWhile, hc]
          simp
    have := h r
    omega
  · simp_wf

/-- `cookiesHeader.split(/;\s*/)`. -/
def splitSemiWs (s : String) : List String := splitSemiWsAux s.data []

/-- `pair.split(/=(.+)/)` destructured as `[key, value]`: the pair splits at
the first `=` that has at least one character after it; if there is no such
`=`, the whole pair is the key and the value is `undefined`. -/
def splitEqCapture (pair : String) : String × Option String :=
  match pair.data.findIdx? (fun c => c = '=') with
  | some i =>
    if i + 1 < pair.data.length then
      (String.mk (pair.data.take i), some (String.mk (pair.data.drop (i + 1))))
    else (pair, none)
  | none => (pair, none)

/-- The cookie map built inside the `try` block: split the header, split
each pair on the first `=`, accumulate with property assignment, then
`delete cookies['']`. -/
def cookiesFromHeader (cookiesHeader : String) : List (String × Option String) :=
  let pairs := splitSemiWs cookiesHeader
  let m := pairs.foldl (fun acc p =>
    let kv := splitEqCapture p
    jsSet acc kv.1 kv.2) []
  jsDelete m ""

/-- The body of the `try` block of the cookie stage: a header longer than
1000 characters raises `Exception(413)`, otherwise the parsed map is
produced. -/
def cookiesStageTry (cookiesHeader : String) : Except Nat (List (String × Option String)) :=
  if cookiesHeader.length > 1000 then .error 413
  else .ok (cookiesFromHeader cookiesHeader)

/-- The whole cookie stage as written in `cheetah.ts`: the `try` block
(including the `throw new Exception(413)`) is wrapped in a `catch` that
replaces ANY thrown error, the 413 included, by the empty cookie map.
The header is `request.headers.get('cookies') ?? ''`. -/
def cookiesStage (hdr : Option String) : List (String × Option String) :=
  match cookiesStageTry (hdr.getD "") with
  | .ok m => m
  | .error _ => []

/- ### Body parsing (cheetah.ts, Parse Body) -/

/-- Outcome of an awaited body read wrapped in `deadline(promise, ms)`:
either the value, a `DeadlineError`, or any other rejection. -/
inductive ReadOutcome (α : Type) where
  | ok (v : α)
  | deadlineErr
  | failErr

/-- The deadline-bounded body readers of the underlying request, indexed by
the number of milliseconds passed to `deadline`. -/
structure BodyReaders where
  jsonR : Nat → ReadOutcome JsVal
  textR : Nat → ReadOutcome String
  formDataR : Nat → ReadOutcome (List (String × JsVal))

/-- Declared kind of `schema.body`: object-like (Zod `ZodObject` / typebox
`Object`), string-like (`ZodString` / `String`), or anything else. -/
inductive BodyKind where
  | objKind
  | strKind
  | otherKind

/-- A body sub-schema: its declared kind plus its validation check
(the validator adapter dispatch collapsed to a boolean predicate). -/
structure BodySchema where
  kind : BodyKind
  check : Option JsVal → Bool

/-- The Parse Body stage of `cheetah.ts`: attempted only when `schema.body`
is present; object-like schemas read form data (when `transform` is true
and the content type is exactly `multipart/form-data`) or JSON, string-like
schemas read text, each bounded by `deadline(…, 3000)`; a `DeadlineError`
becomes `Exception(413)`, any other read failure `Exception(400)`; finally
the parsed body is validated, a rejection raising `Exception(400)`. -/
def parseBodyStage (sb : Option BodySchema) (transform : Bool) (contentType : Option String)
    (r : BodyReaders) : Except Nat (Option JsVal) :=
  match sb with
  | none => .ok none
  | some bs =>
    let readResult : Except Nat (Option JsVal) :=
      match bs.kind with
      | .objKind =>
        if transform = true ∧ contentType = some "multipart/form-data" then
          match r.formDataR 3000 with
          | .ok entries => .ok (some (.obj (entries.foldl (fun m kv => jsSet m kv.1 kv.2) [])))
          | .deadlineErr => .error 413
          | .failErr => .error 400
        else
          match r.jsonR 3000 with
          | .ok v => .ok (some v)
          | .deadlineErr => .error 413
          | .failErr => .error 400
      | .strKind =>
        match r.textR 3000 with
        | .ok s => .ok (some (.str s))
        | .deadlineErr => .error 413
        | .failErr => .error 400
      | .otherKind => .ok none
    match readResult with
    | .error e => .error e
    | .ok b => if bs.check b then .ok b else .error 400

/- ### Response state and the Response Formatter (cheetah.ts, Construct Response) -/

/-- The in-flight `responseBody`: either a JS value (`null`, a string, a
handler-returned structured value, …) or one of the binary/stream bodies
set by `res.blob` / `res.stream` / `res.formData` / `res.buffer`. -/
inductive RBody where
  | jsv (v : JsVal)
  | blobB (size : Nat)
  | streamB
  | formDataB
  | bufferB (len : Nat)

/-- JS truthiness of the in-flight body (blobs, streams, form data and
buffers are objects, hence truthy). -/
def rbodyTruthy : RBody → Bool
  | .jsv v => truthy v
  | _ => true

/-- The `responseBody !== null && responseBody !== undefined` guard. -/
def rbodyNotNullUndef : RBody → Bool
  | .jsv .nullV => false
  | .jsv .undefinedV => false
  | _ => true

/-- `JSON.stringify` of a non-string in-flight body. A binary body here is
unreachable (every `res.*` body setter clears `requiresFormatting`); such
objects would stringify as an empty object. -/
def rbodyToJsVal : RBody → JsVal
  | .jsv v => v
  | _ => .obj []

/-- The mutable response accumulator captured by the context closures:
status code (default 200), headers, body (default `null`) and the
`requiresFormatting` flag (default `true`). -/
structure ResState where
  code : Nat
  headers : List (String × String)
  body : RBody
  requiresFormatting : Bool

/-- `res.code(code)`. -/
def resCode (c : Nat) (st : ResState) : ResState := { st with code := c }

/-- `res.header(name, value)`. -/
def resHeader (name value : String) (st : ResState) : ResState :=
  { st with headers := jsSet st.headers name value }

/-- `res.redirect(destination, code)`: sets the `location` header and the
status code (default 307). -/
def resRedirect (destination : String) (code : Option Nat) (st : ResState) : ResState :=
  { st with
    headers := jsSet st.headers "location" destination,
    code := code.getD 307 }

/-- `res.text(text, code)`: sets the body to the string, clears
`requiresFormatting`, sets `content-type` (if absent) and `content-length`,
and the status code if given. -/
def resText (text : String) (code : Option Nat) (st : ResState) : ResState :=
  let st := { st with body := RBody.jsv (.str text), requiresFormatting := false }
  let st :=
    if (jsGet st.headers "content-type").isNone then
      { st with headers := jsSet st.headers "content-type" "text/plain; charset=utf-8" }
    else st
  let st := { st with headers := jsSet st.headers "content-length" (toString text.length) }
  match code with
  | some c => { st with code := c }
  | none => st

/-- `res.json(json, code)`: stringifies the value immediately (the body
becomes a string), clears `requiresFormatting`, sets `content-type` (if
absent) and `content-length`, and the status code if given. -/
def resJson (json : JsVal) (code : Option Nat) (st : ResState) : ResState :=
  let s := stringifyD json
  let st := { st with body := RBody.jsv (.str s), requiresFormatting := false }
  let st :=
    if (jsGet st.headers "content-type").isNone then
      { st with headers := jsSet st.headers "content-type" "application/json; charset=utf-8" }
    else st
  let st := { st with headers := jsSet st.headers "content-length" (toString s.length) }
  match code with
  | some c => { st with code := c }
  | none => st

/-- `res.blob(blob, code)`. -/
def resBlob (size : Nat) (code : Option Nat) (st : ResState) : ResState :=
  let st := { st with body := RBody.blobB size, requiresFormatting := false }
  let st := { st with headers := jsSet st.headers "content-length" (toString size) }
  match code with
  | some c => { st with code := c }
  | none => st

/-- `res.stream(stream, code)`. -/
def resStream (code : Option Nat) (st : ResState) : ResState :=
  let st := { st with body := RBody.streamB, requiresFormatting := false }
  match code with
  | some c => { st with code := c }
  | none => st

/-- `res.formData(formData, code)`. -/
def resFormData (code : Option Nat) (st : ResState) : ResState :=
  let st := { st with body := RBody.formDataB, requiresFormatting := false }
  match code with
  | some c => { st with code := c }
  | none => st

/-- `res.buffer(buffer, code)`. -/
def resBuffer (len : Nat) (code : Option Nat) (st : ResState) : ResState :=
  let st := { st with body := RBody.bufferB len, requiresFormatting := false }
  let st := { st with headers := jsSet st.headers "content-length" (toString len) }
  match code with
  | some c => { st with code := c }
  | none => st

/-- A wire response: `new Response(body, \x7b status, headers \x7d)`;
`body = none` is a bodyless response (`null`). -/
structure Resp where
  status : Nat
  headers : List (String × String)
  body : Option RBody

/-- Extract the numeric value of a `code` property (used by the formatter
after it has already replaced the body by its serialization). -/
def jsValToNat : JsVal → Nat
  | .num n => n.toNat
  | _ => 0

/-- The Construct Response block of `cheetah.ts`, in source order:
1. strip `cache-control` unless the status is 200 or 301;
2. a truthy `location` header short-circuits to a bodyless response;
3. a falsy body yields a bodyless response;
4. with `requiresFormatting` still true, a string body is tagged
   `text/plain` with its length, any other body is replaced by its JSON
   serialization, tagged `application/json` with the serialized length,
   after which the source reads the `code` property off the (now string)
   body;
5. otherwise the body set by a `res.*` call is passed through. -/
def constructResponse (st : ResState) : Resp :=
  let headers :=
    if st.code ≠ 200 ∧ st.code ≠ 301 then jsDelete st.headers "cache-control" else st.headers
  if ((jsGet headers "location").getD "") ≠ "" then
    ⟨st.code, headers, none⟩
  else if rbodyTruthy st.body = false then
    ⟨st.code, headers, none⟩
  else if st.requiresFormatting = true ∧ rbodyNotNullUndef st.body = true then
    match st.body with
    | .jsv (.str s) =>
      let headers := jsSet headers "content-length" (toString s.length)
      let headers :=
        if (jsGet headers "content-type").isNone then
          jsSet headers "content-type" "text/plain; charset=utf-8"
        else headers
      ⟨st.code, headers, some (.jsv (.str s))⟩
    | b =>
      let s := stringifyD (rbodyToJsVal b)
      let headers := jsSet headers "content-length" (toString s.length)
      let headers :=
        if (jsGet headers "content-type").isNone then
          jsSet headers "content-type" "application/json; charset=utf-8"
        else headers
      -- the source re-reads `.code` from `responseBody`, which by now holds
      -- the serialized string, not the original value
      let serialized : JsVal := .str s
      let code :=
        if truthy (getField serialized "code") then jsValToNat (getField serialized "code")
        else st.code
      ⟨code, headers, some (.jsv (.str s))⟩
  else ⟨st.code, headers, some st.body⟩

/- ### Thrown values, hooks and the handler chain -/

/-- A thrown JS value: either a structured `Exception` carrying an HTTP
status code, or any other value (identified by an opaque tag). -/
inductive Thrown where
  | exc (code : Nat)
  | other (tag : Nat)
deriving DecidableEq

/-- A `beforeParsing` hook: an identifier together with its outcome when
awaited on the raw request (which the model does not mutate). -/
abbrev HookB := Nat × Except Thrown Unit

/-- A `beforeHandling` / `beforeResponding` hook: an identifier together
with its action on the context (modelled by its effect on the response
accumulator), possibly throwing. -/
abbrev HookC := Nat × (ResState → Except Thrown ResState)

/-- The JS string indexing `s[i]`: a one-character string, or `undefined`
(`none`) past the end. -/
def jsStringIndex (s : String) (i : Nat) : Option String :=
  (s.data.get? i).map String.singleton

/-- The hook prefix test of `cheetah.ts` (all three lifecycle points share
it): the hooks under `key` run unless
`key !== '*' && url.pathname[0] !== key + '/' && url.pathname !== key`.
Note that `url.pathname[0]` is the FIRST CHARACTER of the path. -/
def pluginKeyMatches (key pathname : String) : Bool :=
  key = "*" || jsStringIndex pathname 0 = some (key ++ "/") || pathname = key

/-- Run one registered hook list sequentially, recording identifiers of the
hooks that were invoked; a throw aborts the rest. -/
def runHookListB : List HookB → Except Thrown Unit × List Nat
  | [] => (.ok (), [])
  | (hid, out) :: rest =>
    match out with
    | .error t => (.error t, [hid])
    | .ok () =>
      let r := runHookListB rest
      (r.1, hid :: r.2)

/-- The `beforeParsing` hook runner: iterate the registered prefixes in
insertion order, skipping the ones whose prefix test fails. -/
def runHooksB : List (String × List HookB) → String → Except Thrown Unit × List Nat
  | [], _ => (.ok (), [])
  | (key, hooks) :: rest, pathname =>
    if pluginKeyMatches key pathname then
      match runHookListB hooks with
      | (.error t, log) => (.error t, log)
      | (.ok (), log) =>
        let r := runHooksB rest pathname
        (r.1, log ++ r.2)
    else runHooksB rest pathname

/-- Run one context hook list sequentially, threading the response state. -/
def runHookListC : List HookC → ResState → Except Thrown ResState × List Nat
  | [], st => (.ok st, [])
  | (hid, f) :: rest, st =>
    match f st with
    | .error t => (.error t, [hid])
    | .ok st1 =>
      let r := runHookListC rest st1
      (r.1, hid :: r.2)

/-- The `beforeHandling` / `beforeResponding` hook runner. -/
def runHooksC : List (String × List HookC) → String → ResState →
    Except Thrown ResState × List Nat
  | [], _, st => (.ok st, [])
  | (key, hooks) :: rest, pathname, st =>
    if pluginKeyMatches key pathname then
      match runHookListC hooks st with
      | (.error t, log) => (.error t, log)
      | (.ok st1, log) =>
        let r := runHooksC rest pathname st1
        (r.1, log ++ r.2)
    else runHooksC rest pathname st

/-- A validation schema attached as the first route entry: one optional
check per validated part (the validator adapter dispatch collapsed to
boolean predicates), plus the body schema and the `transform` flag. -/
structure Schema where
  headersCheck : Option (List (String × String) → Bool)
  queryCheck : Option (List (String × JsVal) → Bool)
  cookiesCheck : Option (List (String × Option String) → Bool)
  body : Option BodySchema
  transform : Bool

/-- An entry of the matched route list: a schema descriptor (any
non-function entry) or a handler. A handler acts on the context (modelled
by the response accumulator) and returns a JS value, possibly throwing. -/
inductive RouteItem where
  | schemaItem (s : Schema)
  | handlerItem (f : ResState → Except Thrown (ResState × JsVal))

/-- `if (result) responseBody = result`: a truthy handler return value
becomes the response body. -/
def applyHandlerResult (st : ResState) (result : JsVal) : ResState :=
  if truthy result then { st with body := RBody.jsv result } else st

/-- The Route Handling loop of `cheetah.ts`: walk the route entries from
position `i`, skipping non-functions; after each handler, a truthy return
value is written to the body, and a truthy body breaks the loop. Returns
the outcome together with the positions of the handlers that were
invoked. -/
def runRouteAux : List RouteItem → Nat → ResState → Except Thrown ResState × List Nat
  | [], _, st => (.ok st, [])
  | .schemaItem _ :: rest, i, st => runRouteAux rest (i + 1) st
  | .handlerItem f :: rest, i, st =>
    match f st with
    | .error t => (.error t, [i])
    | .ok (st1, result) =>
      let st2 := applyHandlerResult st1 result
      if rbodyTruthy st2.body then (.ok st2, [i])
      else
        let r := runRouteAux rest (i + 1) st2
        (r.1, i :: r.2)

/-- The handler chain executor, starting at route position 0. -/
def runRoute (route : List RouteItem) (st : ResState) : Except Thrown ResState × List Nat :=
  runRouteAux route 0 st

/-- The threaded state after running a passive chain segment: `some st1` if
every handler in the segment succeeds, returns a falsy value and leaves the
body falsy (so the loop does not break inside the segment). -/
def chainPassiveAux : List RouteItem → ResState → Option ResState
  | [], st => some st
  | .schemaItem _ :: rest, st => chainPassiveAux rest st
  | .handlerItem f :: rest, st =>
    match f st with
    | .error _ => none
    | .ok (st1, result) =>
      if truthy result then none
      else if rbodyTruthy st1.body then none
      else chainPassiveAux rest st1

/-- Positions of the handler entries of a route segment, counting from `i`. -/
def handlerPositions : List RouteItem → Nat → List Nat
  | [], _ => []
  | .schemaItem _ :: rest, i => handlerPositions rest (i + 1)
  | .handlerItem _ :: rest, i => i :: handlerPositions rest (i + 1)

/- ### The dispatch pipeline (`cheetah.#handle`) and the fetch handler -/

/-- The host runtime, detected once at construction. -/
inductive JsRuntime where
  | deno
  | cloudflare
deriving DecidableEq

/-- The incoming request, as the pipeline observes it: method, path,
search parameters, headers, and the deadline-bounded body readers. -/
structure Req where
  method : String
  pathname : String
  searchParams : List (String × String)
  headers : List (String × String)
  readers : BodyReaders

/-- ASCII lower-casing of one character (header names are ASCII). -/
def charLower (c : Char) : Char :=
  if 'A' ≤ c ∧ c ≤ 'Z' then Char.ofNat (c.toNat + 32) else c

/-- ASCII lower-casing of a string, modelling `key.toLowerCase()` on header
names. -/
def jsToLower (s : String) : String := String.mk (s.data.map charLower)

/-- `request.headers.get(name)`: case-insensitive lookup, `null` if absent. -/
def reqGetHeader (req : Req) (name : String) : Option String :=
  (req.headers.find? (fun kv => jsToLower kv.1 = jsToLower name)).map (fun kv => kv.2)

/-- The cache configuration (`config.cache`). -/
structure CacheCfg where
  name : String
  duration : Nat

/-- The process-wide plugin registry: one prefix-keyed hook table per
lifecycle point, in registration order. -/
structure PluginRegistry where
  beforeParsing : List (String × List HookB)
  beforeHandling : List (String × List HookC)
  beforeResponding : List (String × List HookC)

/-- The configured application (`cheetah` instance): runtime, CORS origin,
cache config, whether a validator adapter is configured, the plugin
registry and the custom error / not-found handlers. -/
structure App where
  runtime : JsRuntime
  cors : Option String
  cache : Option CacheCfg
  validatorPresent : Bool
  plugins : PluginRegistry
  errorHandler : Option (Thrown → Req → Resp)
  notFoundHandler : Option (Req → Resp)

/-- The preflight test of `cheetah.#handle`: method `OPTIONS` with both an
`origin` and an `access-control-request-method` header present. -/
def isPreflight (req : Req) : Bool :=
  req.method = "OPTIONS" && (reqGetHeader req "origin").isSome &&
    (reqGetHeader req "access-control-request-method").isSome

/-- The conditional `access-control-allow-origin` entry: spread into the
headers only when the configured CORS origin is truthy. -/
def corsHeaderEntries (cors : Option String) : List (String × String) :=
  match cors with
  | some c => if c = "" then [] else [("access-control-allow-origin", c)]
  | none => []

/-- The 204 preflight response built by `cheetah.#handle`. -/
def preflightResp (app : App) (req : Req) : Resp :=
  ⟨204,
    corsHeaderEntries app.cors ++
      [("access-control-allow-methods", "*"),
       ("access-control-allow-headers", (reqGetHeader req "access-control-request-headers").getD "*"),
       ("access-control-allow-credentials", "false"),
       ("access-control-max-age", "600")],
    none⟩

/-- The Parse Headers collection: walk the request headers in order, cap at
50 entries, lower-case the key, and assign only when the slot is still
falsy (absent or the empty string). -/
def collectHeadersAux : List (String × String) → Nat → List (String × String) →
    List (String × String)
  | [], _, acc => acc
  | (k, v) :: rest, num, acc =>
    if num = 50 then acc
    else
      let acc :=
        if ((jsGet acc (jsToLower k)).getD "") = "" then jsSet acc (jsToLower k) v else acc
      collectHeadersAux rest (num + 1) acc

/-- The validated headers map of a request. -/
def collectHeaders (hs : List (String × String)) : List (String × String) :=
  collectHeadersAux hs 0 []

/-- The values produced by the validation stage and exposed on the context. -/
structure VData where
  headers : List (String × String)
  query : List (String × JsVal)
  cookies : List (String × Option String)
  body : Option JsVal

/-- The validation stage of `cheetah.#handle` (entered only when a
validator adapter is configured and the route carries a schema): headers,
query, cookies and body in source order, each validated only when its
sub-schema is present, any rejection raising `Exception(400)` and body-read
failures raising per `parseBodyStage`. -/
def validateRequest (schema : Schema) (req : Req) : Except Nat VData := do
  let headers ←
    match schema.headersCheck with
    | none => pure []
    | some chk =>
      let h := collectHeaders req.headers
      if chk h then pure h else Except.error 400
  let query ←
    match schema.queryCheck with
    | none => pure []
    | some chk =>
      let q := buildQuery req.searchParams
      if chk q then pure q else Except.error 400
  let cookies ←
    match schema.cookiesCheck with
    | none => pure []
    | some chk =>
      let cks := cookiesStage (reqGetHeader req "cookies")
      if chk cks then pure cks else Except.error 400
  let body ← parseBodyStage schema.body schema.transform (reqGetHeader req "content-type")
    req.readers
  pure ⟨headers, query, cookies, body⟩

/-- The initial response accumulator: code 200, the conditional CORS
header, and for GET requests a `cache-control` header whose value
interpolates `this.#cache ?? 0` (the cache CONFIG OBJECT, rendering as
`[object Object]` when a cache is configured). -/
def initState (app : App) (req : Req) : ResState :=
  { code := 200,
    headers :=
      corsHeaderEntries app.cors ++
        (if req.method = "GET" then
          [("cache-control",
            "max-age=" ++ (match app.cache with
                           | some _ => "[object Object]"
                           | none => "0"))]
        else []),
    body := RBody.jsv .nullV,
    requiresFormatting := true }

/-- The observable outcome of one `cheetah.#handle` dispatch: the response
or the thrown value, the identifiers of the hooks run at each lifecycle
point, the positions of the invoked handlers, and whether the validation
stage was entered. -/
structure HandleOut where
  result : Except Thrown Resp
  bpLog : List Nat
  bhLog : List Nat
  brLog : List Nat
  handlerLog : List Nat
  validationRan : Bool

/-- The dispatch pipeline `cheetah.#handle`, in source order: preflight
short-circuit, `beforeParsing` hooks, validation (when a validator is
configured and `route[0]` is a schema), context construction,
`beforeHandling` hooks, the handler chain, `beforeResponding` hooks, and
the response formatter. -/
def handle (app : App) (req : Req) (route : List RouteItem) : HandleOut :=
  if isPreflight req then
    ⟨.ok (preflightResp app req), [], [], [], [], false⟩
  else
    let bp := runHooksB app.plugins.beforeParsing req.pathname
    match bp.1 with
    | .error t => ⟨.error t, bp.2, [], [], [], false⟩
    | .ok () =>
      let schema : Option Schema :=
        match route.head? with
        | some (.schemaItem s) => some s
        | _ => none
      let validationRan := app.validatorPresent && schema.isSome
      let vres : Except Nat VData :=
        if app.validatorPresent then
          match schema with
          | some s => validateRequest s req
          | none => .ok ⟨[], [], [], none⟩
        else .ok ⟨[], [], [], none⟩
      match vres with
      | .error code => ⟨.error (.exc code), bp.2, [], [], [], validationRan⟩
      | .ok _ =>
        let st0 := initState app req
        let bh := runHooksC app.plugins.beforeHandling req.pathname st0
        match bh.1 with
        | .error t => ⟨.error t, bp.2, bh.2, [], [], validationRan⟩
        | .ok st1 =>
          let hr := runRoute route st1
          match hr.1 with
          | .error t => ⟨.error t, bp.2, bh.2, [], hr.2, validationRan⟩
          | .ok st2 =>
            let br := runHooksC app.plugins.beforeResponding req.pathname st2
            match br.1 with
            | .error t => ⟨.error t, bp.2, bh.2, br.2, hr.2, validationRan⟩
            | .ok st3 =>
              ⟨.ok (constructResponse st3), bp.2, bh.2, br.2, hr.2, validationRan⟩

/- ### The fetch boundary: error translation and route-not-found -/

/-- Modelled from the spec: the `Exception` class (file `Exception.ts`) is
not among the provided sources. Per the spec (sections 4.6 and 7), a
structured exception carrying a status code produces a JSON
`\x7bmessage, code\x7d` body whose status matches the code; the message
text (not fixed by the spec) is the standard reason phrase. -/
def exceptionMessage : Nat → String
  | 400 => "Bad Request"
  | 404 => "Not Found"
  | 413 => "Payload Too Large"
  | 500 => "Internal Server Error"
  | _ => "Error"

/-- Modelled from the spec: `err.response(request)` for a structured
`Exception` — a JSON `\x7bmessage, code\x7d` body with matching status. -/
def exceptionResponse (code : Nat) (_req : Req) : Resp :=
  ⟨code,
    [("content-type", "application/json; charset=utf-8;")],
    some (.jsv (.str (stringifyD
      (.obj [("message", .str (exceptionMessage code)), ("code", .num (Int.ofNat code))]))))⟩

/-- The hard-wired 500 fallback of `cheetah.fetch`. -/
def fallback500 : Resp :=
  ⟨500,
    [("content-type", "application/json; charset=utf-8;")],
    some (.jsv (.str (stringifyD
      (.obj [("message", .str "Something Went Wrong"), ("code", .num 500)]))))⟩

/-- The `catch` block of `cheetah.fetch`: a structured `Exception` is
favored, then the configured generic error handler, then the 500 JSON
fallback. -/
def translateError (app : App) (err : Thrown) (req : Req) : Resp :=
  match err with
  | .exc code => exceptionResponse code req
  | .other tag =>
    match app.errorHandler with
    | some h => h (.other tag) req
    | none => fallback500

/-- The body of the `try` block of `cheetah.fetch` plus its `catch`:
route-not-found goes to the configured not-found handler (returned
directly) or to a thrown `Exception(404)`; a matched route dispatches
through `handle`, any thrown value being translated at this boundary. -/
def fetchDispatch (app : App) (req : Req) (routeMatch : Option (List RouteItem)) : Resp :=
  match routeMatch with
  | none =>
    match app.notFoundHandler with
    | some nf => nf req
    | none => translateError app (.exc 404) req
  | some route =>
    match (handle app req route).result with
    | .ok resp => resp
    | .error t => translateError app t req

/-- `cheetah.fetch`: the GET-cache fast path (cloudflare runtime only),
then the dispatch-and-translate body. -/
def fetchModel (app : App) (req : Req) (cached : Option Resp)
    (routeMatch : Option (List RouteItem)) : Resp :=
  if app.cache.isSome ∧ req.method = "GET" ∧ app.runtime = .cloudflare then
    match cached with
    | some r => r
    | none => fetchDispatch app req routeMatch
  else fetchDispatch app req routeMatch

/- ### The `env` accessor (x/env.ts) -/

/-- A context as `x/env.ts` sees it: the detected runtime and the
`__app.env` bindings object. The bindings are an object of an arbitrary
type `E`, hence always truthy. -/
structure EnvContext (E : Type) where
  runtime : JsRuntime
  appEnv : E

/-- One call of `env(c)` from `x/env.ts`, with the module-level memo `ENV`
threaded explicitly: a populated memo (truthy, since environments are
objects) is returned unchanged; otherwise the environment is computed from
the context (`Deno.env.toObject()` on deno, `c.__app.env` on cloudflare)
and stored. Returns the new memo and the returned object. -/
def envCall {E : Type} (denoEnv : E) (memo : Option E) (c : EnvContext E) : Option E × E :=
  match memo with
  | some e => (some e, e)
  | none =>
    let e := match c.runtime with
      | .deno => denoEnv
      | .cloudflare => c.appEnv
    (some e, e)

/- ### Concrete instances used by closed evaluations -/

/-- Body readers of a request whose every read rejects (never consulted in
the scenarios below). -/
def noReaders : BodyReaders := ⟨fun _ => .failErr, fun _ => .failErr, fun _ => .failErr⟩

/-- A minimal configured application: deno runtime, a validator adapter,
no CORS, no cache, no plugins, no custom handlers. -/
def plainApp : App := ⟨.deno, none, none, true, ⟨[], [], []⟩, none, none⟩

/-- A 1001-character `cookies` header. -/
def c1LongHeader : String := String.mk (List.replicate 1001 'a')

/-- A request carrying the over-long `cookies` header. -/
def c1Req : Req := ⟨"POST", "/x", [], [("cookies", c1LongHeader)], noReaders⟩

/-- A route schema validating only cookies, whose check rejects every
cookie map (so reaching the check at all is observable as a 400). -/
def c1Schema : Schema := ⟨none, none, some (fun _ => false), none, false⟩

/-- The route carrying `c1Schema`. -/
def c1Route : List RouteItem := [.schemaItem c1Schema]

/-- A handler-returned structured value carrying a truthy `code` field. -/
def c2Body : JsVal := .obj [("code", .num 404), ("msg", .str "x")]

/-- The response state reaching the formatter after a handler returned
`c2Body` (no `res.*` body call occurred, so `requiresFormatting` is true). -/
def c2State : ResState := ⟨200, [], .jsv c2Body, true⟩

/-- An application with no custom handlers and no validator. -/
def c6App : App := ⟨.deno, none, none, false, ⟨[], [], []⟩, none, none⟩

/-- An application with custom error and not-found handlers. -/
def c6AppH : App :=
  ⟨.deno, none, none, false, ⟨[], [], []⟩,
    some (fun _ _ => ⟨418, [], none⟩), some (fun _ => ⟨404, [], none⟩)⟩

/-- A plain GET request. -/
def c6Req : Req := ⟨"GET", "/x", [], [], noReaders⟩

/-- A route whose only handler throws a non-`Exception` value. -/
def c6ErrRoute : List RouteItem := [.handlerItem (fun _ => .error (.other 7))]

/- ## Theorems -/

/-- Deleting one key leaves the lookup of a different key unchanged
(shared helper about the JS map model). -/
theorem jsGet_delete_other {α : Type} (m : List (String × α)) (k k2 : String) (h : k ≠ k2) :
    jsGet (jsDelete m k2) k = jsGet m k := by
  induction m with
  | nil => rfl
  | cons kv m ih =>
    by_cases hk : kv.1 = k2
    · have hkk : ¬ kv.1 = k := fun hh => h (hh.symm.trans hk)
      have step : jsDelete (kv :: m) k2 = jsDelete m k2 := by
        simp [jsDelete, List.filter_cons, hk]
      have l2 : jsGet (kv :: m) k = jsGet m k := by
        simp [jsGet, List.find?_cons, hkk]
      rw [step, ih, l2]
    · have step : jsDelete (kv :: m) k2 = kv :: jsDelete m k2 := by
        simp [jsDelete, List.filter_cons, hk]
      rw [step]
      by_cases hkk : kv.1 = k
      · have l1 : jsGet (kv :: jsDelete m k2) k = some kv.2 := by
          simp [jsGet, List.find?_cons, hkk]
        have l2 : jsGet (kv :: m) k = some kv.2 := by
          simp [jsGet, List.find?_cons, hkk]
        rw [l1, l2]
      · have l1 : jsGet (kv :: jsDelete m k2) k = jsGet (jsDelete m k2) k := by
          simp [jsGet, List.find?_cons, hkk]
        have l2 : jsGet (kv :: m) k = jsGet m k := by
          simp [jsGet, List.find?_cons, hkk]
        rw [l1, l2, ih]

set_option maxRecDepth 40000

/-- Claim C1 (code_bug evidence): for a `cookies` header of 1001
characters, the `throw new Exception(413)` inside the cookie stage is
swallowed by the surrounding `catch`, which substitutes the empty cookie
map; the dispatch therefore proceeds into cookie validation (observed here
as the 400 raised by a rejecting cookie check) instead of failing with
413. -/
theorem cookie_overflow_swallowed :
    1000 < c1LongHeader.length ∧
    cookiesStageTry c1LongHeader = .error 413 ∧
    cookiesStage (some c1LongHeader) = [] ∧
    (handle plainApp c1Req c1Route).result = Except.error (.exc 400) ∧
    (handle plainApp c1Req c1Route).result ≠ Except.error (.exc 413) ∧
    (handle plainApp c1Req c1Route).validationRan = true := by
  have hlen : c1LongHeader.length = 1001 := by
    simp [c1LongHeader, String.length]
  have htry : cookiesStageTry c1LongHeader = .error 413 := by
    simp [cookiesStageTry, hlen]
  have hstage : cookiesStage (some c1LongHeader) = [] := by
    simp [cookiesStage, htry]
  have h400 : (handle plainApp c1Req c1Route).result = Except.error (.exc 400) := rfl
  refine ⟨by omega, htry, hstage, h400, ?_, rfl⟩
  rw [h400]
  simp

/-- Claim C2 (code_bug evidence): with `requiresFormatting` still true and
a handler-returned non-string body carrying a truthy `code` field of 404,
the formatter JSON-serializes the body, tags it `application/json` and
stamps the serialized length, but the final status remains 200: the source
reads the `code` property off the already-serialized string, so the
body-declared status never overrides. -/
theorem body_code_override_dead :
    truthy (getField c2Body "code") = true ∧
    (constructResponse c2State).status = 200 ∧
    (constructResponse c2State).status ≠ 404 ∧
    jsGet (constructResponse c2State).headers "content-type" =
      some "application/json; charset=utf-8" ∧
    jsGet (constructResponse c2State).headers "content-length" =
      some (toString (stringifyD c2Body).length) ∧
    (constructResponse c2State).body = some (.jsv (.str (stringifyD c2Body))) := by
  refine ⟨rfl, rfl, ?_, rfl, rfl, rfl⟩
  have h : (constructResponse c2State).status = 200 := rfl
  rw [h]
  simp

/-- Claim C3 (code_bug evidence): the hook prefix test compares
`url.pathname[0]` — the first character of the path — with `key + '/'`, so
a registered prefix that the request path merely begins with never
matches: `/api` does not match the path `/api/users` even though the path
starts with it, and a hook registered under `/api` does not run there
(while `*` and exact equality do match). -/
theorem prefix_match_never_fires :
    pluginKeyMatches "/api" "/api/users" = false ∧
    "/api/users".data.take ("/api".data.length) = "/api".data ∧
    pluginKeyMatches "*" "/api/users" = true ∧
    pluginKeyMatches "/api/users" "/api/users" = true ∧
    runHooksB [("/api", [(0, .ok ())])] "/api/users" = (.ok (), []) ∧
    (runHooksC [("/api", [(0, fun st => .ok st)])] "/api/users"
      ⟨200, [], .jsv .nullV, true⟩).2 = [] := by
  exact ⟨by decide, by decide, by decide, by decide, rfl, rfl⟩

/-- Claim C10: the `env` accessor memoizes globally: the first call fixes
the returned environment object (the module-level `ENV` becomes exactly
that object), and any later call returns it unchanged, regardless of the
context passed, its runtime, or its bindings. -/
theorem env_memoized_globally (E : Type) (denoEnv : E) (c c2 : EnvContext E) :
    (envCall denoEnv (envCall denoEnv none c).1 c2).2 = (envCall denoEnv none c).2 ∧
    (envCall denoEnv none c).1 = some (envCall denoEnv none c).2 := by
  cases hr : c.runtime <;> simp [envCall, hr]

/-- Claim C4: the query-value coercion is a total function applying
exactly the source priority order: empty string or `true` give boolean
true; `false` gives boolean false; a value containing a comma gives the
ordered list of comma-separated substrings; a value fully parsing as a
number gives its leading-integer parse (`parseInt`, `NaN` included);
the literals `undefined` and `null` give the respective sentinels; any
other value passes through as the raw string. -/
theorem query_coercion_priority (v : String) :
    ((v = "" ∨ v = "true") → coerceQueryValue v = .bool true) ∧
    (v = "false" → coerceQueryValue v = .bool false) ∧
    (hasComma v = true → coerceQueryValue v = .arr ((jsSplitChar ',' v).map .str)) ∧
    (hasComma v = false → strNumericOk v = true → parseFloatIsNaN v = false →
      coerceQueryValue v =
        (match jsParseInt v with
         | some n => .num n
         | none => .nan)) ∧
    coerceQueryValue "undefined" = .undefinedV ∧
    coerceQueryValue "null" = .nullV ∧
    (v ≠ "" → v ≠ "true" → v ≠ "false" → hasComma v = false →
      ¬(strNumericOk v = true ∧ parseFloatIsNaN v = false) →
      v ≠ "undefined" → v ≠ "null" → coerceQueryValue v = .str v) := by
  refine ⟨?_, ?_, ?_, ?_, rfl, rfl, ?_⟩
  · intro h
    simp only [coerceQueryValue, if_pos h]
  · intro h
    subst h
    rfl
  · intro hc
    have h1 : ¬(v = "" ∨ v = "true") := by
      rintro (rfl | rfl) <;> exact absurd hc (by decide)
    have h2 : ¬(v = "false") := by
      rintro rfl
      exact absurd hc (by decide)
    simp only [coerceQueryValue, if_neg h1, if_neg h2, hc, if_true]
  · intro hc hn hp
    have h1 : ¬(v = "" ∨ v = "true") := by
      rintro (rfl | rfl)
      · exact absurd hp (by decide)
      · exact absurd hn (by decide)
    have h2 : ¬(v = "false") := by
      rintro rfl
      exact absurd hn (by decide)
    simp only [coerceQueryValue, if_neg h1, if_neg h2, hc, Bool.false_eq_true, if_false,
      if_pos (And.intro hn hp)]
  · intro h1 h2 h3 hc hnum h4 h5
    have h12 : ¬(v = "" ∨ v = "true") := by
      rintro (rfl | rfl)
      · exact h1 rfl
      · exact h2 rfl
    simp only [coerceQueryValue, if_neg h12, if_neg h3, hc, Bool.false_eq_true, if_false,
      if_neg hnum, if_neg h4, if_neg h5]

/-- Witness for C4: concrete instances of every clause of
`query_coercion_priority`. -/
theorem query_coercion_priority_witness :
    coerceQueryValue "true" = .bool true ∧
    coerceQueryValue "false" = .bool false ∧
    coerceQueryValue "a,b,c" = .arr [.str "a", .str "b", .str "c"] ∧
    coerceQueryValue "42" = .num 42 ∧
    coerceQueryValue "undefined" = .undefinedV ∧
    coerceQueryValue "null" = .nullV ∧
    coerceQueryValue "hello" = .str "hello" := by
  refine ⟨(query_coercion_priority "true").1 (Or.inr rfl),
    (query_coercion_priority "false").2.1 rfl, ?_, ?_,
    (query_coercion_priority "x").2.2.2.2.1,
    (query_coercion_priority "x").2.2.2.2.2.1, ?_⟩
  · rw [(query_coercion_priority "a,b,c").2.2.1 rfl]
    rfl
  · rw [(query_coercion_priority "42").2.2.2.1 rfl rfl rfl]
    rfl
  · exact (query_coercion_priority "hello").2.2.2.2.2.2 (by decide) (by decide) (by decide)
      (by decide) (by decide) (by decide) (by decide)

/-- Claim C5: the body read happens only when `schema.body` is present (an
absent body schema gives `ok none` whatever the readers would do); every
read is sampled at the 3000 ms deadline (the stage result depends only on
the readers at 3000); and on failure the status is fixed by the failure
kind alone: a deadline exceedance gives 413 on every read path, any other
read failure gives 400. -/
theorem body_read_deadline_status (t : Bool) (ct : Option String) (r : BodyReaders)
    (bs : BodySchema) :
    parseBodyStage none t ct r = .ok none ∧
    (bs.kind = .objKind → ¬(t = true ∧ ct = some "multipart/form-data") →
      (r.jsonR 3000 = .deadlineErr → parseBodyStage (some bs) t ct r = .error 413) ∧
      (r.jsonR 3000 = .failErr → parseBodyStage (some bs) t ct r = .error 400)) ∧
    (bs.kind = .objKind → t = true → ct = some "multipart/form-data" →
      (r.formDataR 3000 = .deadlineErr → parseBodyStage (some bs) t ct r = .error 413) ∧
      (r.formDataR 3000 = .failErr → parseBodyStage (some bs) t ct r = .error 400)) ∧
    (bs.kind = .strKind →
      (r.textR 3000 = .deadlineErr → parseBodyStage (some bs) t ct r = .error 413) ∧
      (r.textR 3000 = .failErr → parseBodyStage (some bs) t ct r = .error 400)) ∧
    (∀ r2 : BodyReaders, r.jsonR 3000 = r2.jsonR 3000 → r.textR 3000 = r2.textR 3000 →
      r.formDataR 3000 = r2.formDataR 3000 →
      parseBodyStage (some bs) t ct r = parseBodyStage (some bs) t ct r2) := by
  obtain ⟨kind, check⟩ := bs
  refine ⟨rfl, ?_, ?_, ?_, ?_⟩
  · rintro rfl hmp
    constructor <;> intro hr <;> simp [parseBodyStage, if_neg hmp, hr]
  · rintro rfl ht hct
    constructor <;> intro hr <;>
      simp [parseBodyStage, if_pos (And.intro ht hct), hr]
  · rintro rfl
    constructor <;> intro hr <;> simp [parseBodyStage, hr]
  · intro r2 hj htx hf
    cases kind with
    | objKind =>
      by_cases hmp : t = true ∧ ct = some "multipart/form-data"
      · simp [parseBodyStage, if_pos hmp, hf]
      · simp [parseBodyStage, if_neg hmp, hj]
    | strKind => simp [parseBodyStage, htx]
    | otherKind => simp [parseBodyStage]

/-- Witness for C5: a reader set that exceeds the JSON deadline and fails
the text read, exercising the clauses of `body_read_deadline_status`. -/
theorem body_read_deadline_status_witness :
    parseBodyStage none false none
      ⟨fun _ => .deadlineErr, fun _ => .failErr, fun _ => .failErr⟩ = .ok none ∧
    parseBodyStage (some ⟨.objKind, fun _ => true⟩) false none
      ⟨fun _ => .deadlineErr, fun _ => .failErr, fun _ => .failErr⟩ = .error 413 ∧
    parseBodyStage (some ⟨.objKind, fun _ => true⟩) true (some "multipart/form-data")
      ⟨fun _ => .deadlineErr, fun _ => .failErr, fun _ => .failErr⟩ = .error 400 ∧
    parseBodyStage (some ⟨.strKind, fun _ => true⟩) false none
      ⟨fun _ => .deadlineErr, fun _ => .failErr, fun _ => .failErr⟩ = .error 400 := by
  refine ⟨(body_read_deadline_status false none _ ⟨.objKind, fun _ => true⟩).1,
    ((body_read_deadline_status false none _ ⟨.objKind, fun _ => true⟩).2.1 rfl
      (by simp)).1 rfl,
    ((body_read_deadline_status true (some "multipart/form-data") _
      ⟨.objKind, fun _ => true⟩).2.2.1 rfl rfl rfl).2 rfl,
    ((body_read_deadline_status false none _ ⟨.strKind, fun _ => true⟩).2.2.2.1 rfl).2 rfl⟩

/-- Claim C6: every failure surfaces as a valid response. A structured
exception with status `code` yields a JSON `message`/`code` body with
matching status; any other thrown value goes to the configured generic
error handler if there is one, and otherwise to the exact 500 fallback
with body `\x7b"message":"Something Went Wrong","code":500\x7d`; any
error escaping a dispatch is translated at the fetch boundary; an
unmatched route yields the configured not-found handler response, or the
404 exception response otherwise. -/
theorem error_translation_total (app : App) (req : Req) (code : Nat) (tag : Nat)
    (route : List RouteItem) (t : Thrown) :
    ((translateError app (.exc code) req).status = code ∧
      (translateError app (.exc code) req).body =
        some (.jsv (.str (stringifyD
          (.obj [("message", .str (exceptionMessage code)),
                 ("code", .num (Int.ofNat code))]))))) ∧
    (∀ h, app.errorHandler = some h →
      translateError app (.other tag) req = h (.other tag) req) ∧
    (app.errorHandler = none →
      translateError app (.other tag) req = fallback500 ∧
      fallback500.status = 500 ∧
      fallback500.body =
        some (.jsv (.str "\x7b\"message\":\"Something Went Wrong\",\"code\":500\x7d"))) ∧
    ((handle app req route).result = .error t →
      fetchDispatch app req (some route) = translateError app t req) ∧
    (∀ nf, app.notFoundHandler = some nf → fetchDispatch app req none = nf req) ∧
    (app.notFoundHandler = none →
      fetchDispatch app req none = exceptionResponse 404 req ∧
      (exceptionResponse 404 req).status = 404) := by
  refine ⟨⟨rfl, rfl⟩, ?_, ?_, ?_, ?_, ?_⟩
  · intro h he
    simp [translateError, he]
  · intro he
    exact ⟨by simp [translateError, he], rfl, rfl⟩
  · intro hh
    simp [fetchDispatch, hh]
  · intro nf hn
    simp [fetchDispatch, hn]
  · intro hn
    exact ⟨by simp [fetchDispatch, hn, translateError], rfl⟩

/-- Witness for C6: the clauses of `error_translation_total` instantiated
on concrete applications, one without custom handlers and one with both. -/
theorem error_translation_total_witness :
    (translateError c6App (.exc 404) c6Req).status = 404 ∧
    translateError c6AppH (.other 3) c6Req = ⟨418, [], none⟩ ∧
    translateError c6App (.other 3) c6Req = fallback500 ∧
    fetchDispatch c6App c6Req (some c6ErrRoute) = translateError c6App (.other 7) c6Req ∧
    fetchDispatch c6AppH c6Req none = ⟨404, [], none⟩ ∧
    fetchDispatch c6App c6Req none = exceptionResponse 404 c6Req := by
  refine ⟨(error_translation_total c6App c6Req 404 3 [] (.other 0)).1.1,
    (error_translation_total c6AppH c6Req 404 3 [] (.other 0)).2.1 _ rfl,
    ((error_translation_total c6App c6Req 404 3 [] (.other 0)).2.2.1 rfl).1,
    (error_translation_total c6App c6Req 404 7 c6ErrRoute (.other 7)).2.2.2.1 rfl,
    (error_translation_total c6AppH c6Req 404 3 [] (.other 0)).2.2.2.2.1 _ rfl,
    ((error_translation_total c6App c6Req 404 3 [] (.other 0)).2.2.2.2.2 rfl).1⟩

/-- Running the handler loop across a passive route segment: every handler
of the segment runs (in order), the state threads through, and the loop
continues after the segment (shared helper for the handler-chain claims). -/
theorem runRouteAux_passive (pre : List RouteItem) :
    ∀ (i : Nat) (st0 stp : ResState) (rest : List RouteItem),
      chainPassiveAux pre st0 = some stp →
      runRouteAux (pre ++ rest) i st0 =
        ((runRouteAux rest (i + pre.length) stp).1,
          handlerPositions pre i ++ (runRouteAux rest (i + pre.length) stp).2) := by
  induction pre with
  | nil =>
    intro i st0 stp rest h
    simp only [chainPassiveAux, Option.some.injEq] at h
    subst h
    simp [handlerPositions]
  | cons item pre ih =>
    intro i st0 stp rest h
    cases item with
    | schemaItem s =>
      simp only [chainPassiveAux] at h
      have harith : i + 1 + pre.length = i + (pre.length + 1) := by omega
      simp only [List.cons_append, runRouteAux, handlerPositions, List.length_cons,
        List.append_eq]
      rw [ih (i + 1) st0 stp rest h, harith]
    | handlerItem f =>
      simp only [chainPassiveAux] at h
      cases hf : f st0 with
      | error t => rw [hf] at h; simp at h
      | ok p =>
        obtain ⟨st1, result⟩ := p
        rw [hf] at h
        dsimp only at h
        by_cases htr : truthy result
        · rw [if_pos htr] at h; simp at h
        · rw [if_neg htr] at h
          by_cases hb : rbodyTruthy st1.body
          · rw [if_pos hb] at h; simp at h
          · rw [if_neg hb] at h
            have hst2 : applyHandlerResult st1 result = st1 := by
              simp [applyHandlerResult, htr]
            have harith : i + 1 + pre.length = i + (pre.length + 1) := by omega
            simp only [List.cons_append, runRouteAux, hf, hst2, handlerPositions,
              List.length_cons]
            rw [if_neg hb]
            simp only [List.append_eq]
            rw [ih (i + 1) st1 stp rest h, harith]

/-- Claim C7: over a route whose earlier handlers are passive (falsy
returns, body left falsy), the first handler after which the body is
truthy — by a truthy return value, or by a body set during its execution —
ends the chain: exactly the handlers up to and including it run, in
registration order (schema entries skipped), no later handler is invoked,
and a truthy return value itself becomes the response body. -/
theorem handler_chain_stops_at_first (pre rest : List RouteItem)
    (f : ResState → Except Thrown (ResState × JsVal)) (st0 stp st1 : ResState) (result : JsVal)
    (hpre : chainPassiveAux pre st0 = some stp)
    (hf : f stp = .ok (st1, result))
    (hstop : rbodyTruthy (applyHandlerResult st1 result).body = true) :
    runRoute (pre ++ .handlerItem f :: rest) st0 =
      (.ok (applyHandlerResult st1 result), handlerPositions pre 0 ++ [pre.length]) ∧
    (truthy result = true → (applyHandlerResult st1 result).body = .jsv result) := by
  constructor
  · rw [runRoute, runRouteAux_passive pre 0 st0 stp (.handlerItem f :: rest) hpre]
    simp [runRouteAux, hf, hstop]
  · intro htr
    simp [applyHandlerResult, htr]

/-- Witness for C7: a two-handler chain whose first handler is passive and
whose second returns the truthy string `hi`; the third handler is never
invoked and the body is the returned string. -/
theorem handler_chain_stops_at_first_witness :
    runRoute
        ([RouteItem.handlerItem (fun st => .ok (st, .str ""))] ++
          RouteItem.handlerItem (fun st => .ok (st, .str "hi")) ::
            [RouteItem.handlerItem (fun st => .ok (st, .str "later"))])
        ⟨200, [], .jsv .nullV, true⟩ =
      (.ok (applyHandlerResult ⟨200, [], .jsv .nullV, true⟩ (.str "hi")),
        handlerPositions [RouteItem.handlerItem (fun st => .ok (st, .str ""))] 0 ++ [1]) ∧
    (truthy (.str "hi") = true →
      (applyHandlerResult ⟨200, [], .jsv .nullV, true⟩ (.str "hi")).body = .jsv (.str "hi")) :=
  handler_chain_stops_at_first
    [RouteItem.handlerItem (fun st => .ok (st, .str ""))]
    [RouteItem.handlerItem (fun st => .ok (st, .str "later"))]
    (fun st => .ok (st, .str "hi"))
    ⟨200, [], .jsv .nullV, true⟩ ⟨200, [], .jsv .nullV, true⟩ ⟨200, [], .jsv .nullV, true⟩
    (.str "hi") rfl rfl rfl

/-- Claim C8: an `OPTIONS` request carrying both an `origin` and an
`access-control-request-method` header short-circuits the whole dispatch:
the result is a 204 with exactly the CORS headers (`allow-origin` only
when CORS is configured, `allow-methods` `*`, `allow-headers` echoing the
requested headers or `*`, `allow-credentials` `false`, `max-age` `600`),
no body, and no hook, no validation and no handler runs. -/
theorem preflight_short_circuit (app : App) (req : Req) (route : List RouteItem)
    (h : isPreflight req = true) :
    handle app req route =
      ⟨.ok ⟨204,
        corsHeaderEntries app.cors ++
          [("access-control-allow-methods", "*"),
           ("access-control-allow-headers",
             (reqGetHeader req "access-control-request-headers").getD "*"),
           ("access-control-allow-credentials", "false"),
           ("access-control-max-age", "600")],
        none⟩, [], [], [], [], false⟩ := by
  simp [handle, h, preflightResp]

/-- Witness for C8: a concrete preflight request against an application
with CORS origin `*`; no hooks, validation or handlers run. -/
theorem preflight_short_circuit_witness :
    handle
        ⟨.deno, some "*", none, true, ⟨[], [], []⟩, none, none⟩
        ⟨"OPTIONS", "/x", [],
          [("origin", "https://example.com"), ("access-control-request-method", "GET")],
          noReaders⟩
        [] =
      ⟨.ok ⟨204,
        [("access-control-allow-origin", "*"),
         ("access-control-allow-methods", "*"),
         ("access-control-allow-headers", "*"),
         ("access-control-allow-credentials", "false"),
         ("access-control-max-age", "600")],
        none⟩, [], [], [], [], false⟩ :=
  preflight_short_circuit
    ⟨.deno, some "*", none, true, ⟨[], [], []⟩, none, none⟩
    ⟨"OPTIONS", "/x", [],
      [("origin", "https://example.com"), ("access-control-request-method", "GET")],
      noReaders⟩
    [] rfl

/-- Claim C9: the empty string counts as an absent body. A handler that
returns the empty string (with the body still falsy) does not stop the
chain — the invocation log continues into the rest of the chain and in
particular the next handler is invoked; `res.text('')` leaves the body
falsy; and the formatter emits a bodyless response with the current
status and headers whenever the final body is the empty string. -/
theorem empty_string_body_absent
    (f g : ResState → Except Thrown (ResState × JsVal)) (rest : List RouteItem)
    (st0 st1 : ResState)
    (hf : f st0 = .ok (st1, .str ""))
    (hb : rbodyTruthy st1.body = false) :
    runRoute (.handlerItem f :: .handlerItem g :: rest) st0 =
      ((runRouteAux (.handlerItem g :: rest) 1 st1).1,
        0 :: (runRouteAux (.handlerItem g :: rest) 1 st1).2) ∧
    1 ∈ (runRoute (.handlerItem f :: .handlerItem g :: rest) st0).2 ∧
    (∀ st : ResState, st.body = .jsv (.str "") → jsGet st.headers "location" = none →
      constructResponse st =
        ⟨st.code,
          (if st.code ≠ 200 ∧ st.code ≠ 301 then jsDelete st.headers "cache-control"
           else st.headers),
          none⟩) ∧
    (∀ (st : ResState) (c : Option Nat),
      (resText "" c st).body = .jsv (.str "") ∧
      rbodyTruthy (resText "" c st).body = false) := by
  have htr : truthy (JsVal.str "") = false := rfl
  have hst2 : applyHandlerResult st1 (.str "") = st1 := by
    simp [applyHandlerResult, htr]
  have hrun : runRoute (.handlerItem f :: .handlerItem g :: rest) st0 =
      ((runRouteAux (.handlerItem g :: rest) 1 st1).1,
        0 :: (runRouteAux (.handlerItem g :: rest) 1 st1).2) := by
    simp only [runRoute, runRouteAux, hf, hst2]
    rw [if_neg (by simp [hb])]
  refine ⟨hrun, ?_, ?_, ?_⟩
  · rw [hrun]
    cases hg : g st1 with
    | error t => simp [runRouteAux, hg]
    | ok p =>
      obtain ⟨st2, result2⟩ := p
      by_cases hstop : rbodyTruthy (applyHandlerResult st2 result2).body
      · simp [runRouteAux, hg, hstop]
      · simp [runRouteAux, hg, hstop]
  · intro st hbody hl
    have hl2 : jsGet
        (if st.code ≠ 200 ∧ st.code ≠ 301 then jsDelete st.headers "cache-control"
         else st.headers) "location" = none := by
      by_cases hc : st.code ≠ 200 ∧ st.code ≠ 301
      · rw [if_pos hc, jsGet_delete_other st.headers "location" "cache-control" (by decide), hl]
      · rw [if_neg hc, hl]
    simp only [constructResponse, hl2]
    rw [if_neg (by simp)]
    rw [if_pos (by rw [hbody]; rfl)]
  · intro st c
    have hbody : ∀ c2, (resText "" c2 st).body = RBody.jsv (.str "") := by
      intro c2
      cases c2 <;> (dsimp only [resText]; split <;> rfl)
    refine ⟨hbody c, ?_⟩
    rw [hbody c]
    rfl

/-- Witness for C9: a chain whose first handler returns the empty string;
the second handler does run, and the formatter emits a bodyless 200 for an
empty-string body. -/
theorem empty_string_body_absent_witness :
    runRoute
        [RouteItem.handlerItem (fun st => .ok (st, .str "")),
         RouteItem.handlerItem (fun st => .ok (st, .str "second"))]
        ⟨200, [], .jsv .nullV, true⟩ =
      ((runRouteAux [RouteItem.handlerItem (fun st => .ok (st, .str "second"))] 1
          ⟨200, [], .jsv .nullV, true⟩).1,
        0 :: (runRouteAux [RouteItem.handlerItem (fun st => .ok (st, .str "second"))] 1
          ⟨200, [], .jsv .nullV, true⟩).2) ∧
    1 ∈ (runRoute
        [RouteItem.handlerItem (fun st => .ok (st, .str "")),
         RouteItem.handlerItem (fun st => .ok (st, .str "second"))]
        ⟨200, [], .jsv .nullV, true⟩).2 ∧
    constructResponse ⟨200, [("x-a", "b")], .jsv (.str ""), false⟩ =
      ⟨200, [("x-a", "b")], none⟩ := by
  have h := empty_string_body_absent
    (fun st => .ok (st, .str "")) (fun st => .ok (st, .str "second")) []
    ⟨200, [], .jsv .nullV, true⟩ ⟨200, [], .jsv .nullV, true⟩ rfl rfl
  refine ⟨h.1, h.2.1, ?_⟩
  have h3 := h.2.2.1 ⟨200, [("x-a", "b")], .jsv (.str ""), false⟩ rfl rfl
  simpa using h3

end Cheetah
